import Mathlib

/-!
Verification of the message-gating and ordered-delivery subsystem of
`shell/renderer/electron_api_service_impl.cc`.

The C++ file is shallowly embedded as a state machine.  The mutable members
of `ElectronApiServiceImpl` (`document_created_`, `pending_messages_`,
`receiver_`, `pending_receiver_`) become a `State` record; each mojo entry
point (`Message`, `BindTo`, `DidCreateDocumentElement`,
`ProcessPendingMessages`, `OnConnectionError`, `ReceivePostMessage`)
becomes a function `State → State × List Event`, where the event list
records the externally visible effects in program order: V8 callback
invocations made through `InvokeIpcCallback`, receiver resets, binds,
disconnect-handler installations, and releases of an overwritten pending
receiver.

C++ move semantics are modelled explicitly: a `blink::CloneableMessage`
payload is `Payload.val s` while intact and `Payload.moved` after
`std::move` has transferred it away, because `Message` stores the payload
with `std::move(arguments)` and afterwards still converts the (now
moved-from) `arguments` for delivery.

The surrounding environment is a record `Env`:
`Env.frame` is whether `render_frame()->GetWebFrame()` is non-null, and
`Env.ipcObjectPresent` is whether `GetIpcObject` finds the private
`ipcNative` object on the context's global (when absent,
`InvokeIpcCallback` returns without calling anything).
-/

namespace ElectronIpc

/-- A `blink::CloneableMessage` payload: an opaque serialized value, or the
valid-but-empty state a `CloneableMessage` is left in after `std::move`. -/
inductive Payload where
  | val (s : String)
  | moved
deriving DecidableEq, Repr

/-- A V8 value as far as this subsystem distinguishes them: the conversions
performed in `EmitIPCEvent`, `Message` and `ReceivePostMessage`.  The only
vectors the code converts are the ports vector (`ofPorts`, each element an
entangled port handle) and `ReceivePostMessage`'s argument vector of
deserialized values (`ofValueList`). -/
inductive V8Value where
  | ofBool (b : Bool)
  | ofString (s : String)
  | ofInt (n : Int)
  | ofPorts (ids : List Nat)
  | ofCloneable (p : Payload)
  | ofValueList (ps : List Payload)
deriving DecidableEq, Repr

/-- `PendingElectronApiServiceMessage`: one buffered browser→renderer
message, as stored in `pending_messages_`. -/
structure PendingElectronApiServiceMessage where
  internal : Bool
  channel : String
  arguments : Payload
  sender_id : Int
deriving DecidableEq, Repr

/-- `blink::TransferableMessage`: a payload plus transferred message
ports (identified here by numeric handles). -/
structure TransferableMessage where
  payload : Payload
  ports : List Nat
deriving DecidableEq, Repr

/-- Externally visible effects, in program order. -/
inductive Event where
  /-- `InvokeIpcCallback` actually calling the function registered under
  `callback_name` on the `ipcNative` object, with the given argument
  vector. -/
  | callback (callback_name : String) (args : List V8Value)
  /-- `receiver_.reset()` releasing the active binding `old`. -/
  | receiverReset (old : Nat)
  /-- `receiver_.Bind(...)` installing binding `id` as active. -/
  | bindReceiver (id : Nat)
  /-- `receiver_.set_disconnect_handler(...)` wired for binding `id`. -/
  | disconnectHandlerSet (id : Nat)
  /-- assignment to `pending_receiver_` destroying the previously stored,
  never-activated pending receiver `old`. -/
  | pendingReceiverReleased (old : Nat)
deriving DecidableEq, Repr

/-- The mutable members of `ElectronApiServiceImpl`. Bindings (mojo
receivers) are identified by numeric handles; `none` means unbound. -/
structure State where
  document_created : Bool
  pending_messages : List PendingElectronApiServiceMessage
  receiver : Option Nat
  pending_receiver : Option Nat
deriving DecidableEq, Repr

/-- The state a freshly constructed `ElectronApiServiceImpl` is in:
`document_created_` default-false, empty queue, nothing bound. -/
def initialState : State :=
  { document_created := false
    pending_messages := []
    receiver := none
    pending_receiver := none }

/-- The environment at the time an entry point runs. -/
structure Env where
  /-- whether `render_frame()->GetWebFrame()` is non-null. -/
  frame : Bool
  /-- whether `GetIpcObject` finds the `ipcNative` object. -/
  ipcObjectPresent : Bool
deriving DecidableEq, Repr

/-- `InvokeIpcCallback`: looks up `ipcNative`; if it is missing, returns
without invoking anything; otherwise calls the registered function with
`args`. -/
def InvokeIpcCallback (env : Env) (callback_name : String)
    (args : List V8Value) : List Event :=
  if env.ipcObjectPresent then [Event.callback callback_name args] else []

/-- `EmitIPCEvent`: builds the argument vector
`{internal, channel, ports, args, sender_id}` and invokes the `onMessage`
callback through `InvokeIpcCallback`. -/
def EmitIPCEvent (env : Env) (internal : Bool) (channel : String)
    (ports : List Nat) (args : V8Value) (sender_id : Int) : List Event :=
  InvokeIpcCallback env "onMessage"
    [V8Value.ofBool internal, V8Value.ofString channel,
     V8Value.ofPorts ports, args, V8Value.ofInt sender_id]

/-- `ElectronApiServiceImpl::Message`.  When `!document_created_` the
message is pushed onto `pending_messages_` (the payload is transferred
into storage by `std::move(arguments)`, leaving the local `arguments`
moved-from) and — the body does not return there — control falls through:
if the web frame is null the function returns, otherwise the (possibly
moved-from) `arguments` are converted and `EmitIPCEvent` is invoked. -/
def Message (env : Env) (s : State) (internal : Bool) (channel : String)
    (arguments : Payload) (sender_id : Int) : State × List Event :=
  let buffered :=
    if !s.document_created then
      let message : PendingElectronApiServiceMessage :=
        { internal := internal, channel := channel,
          arguments := arguments, sender_id := sender_id }
      ({ s with pending_messages := s.pending_messages ++ [message] },
       Payload.moved)
    else
      (s, arguments)
  let s1 := buffered.1
  let args1 := buffered.2
  if !env.frame then
    (s1, [])
  else
    (s1, EmitIPCEvent env internal channel [] (V8Value.ofCloneable args1)
          sender_id)

/-- `ElectronApiServiceImpl::ProcessPendingMessages`, fuel-indexed: the C++
`while (!pending_messages_.empty())` loop, popping the front and re-invoking
`Message` on it.  `none` means the fuel ran out before the loop exited. -/
def ProcessPendingMessagesFuel (env : Env) :
    Nat → State → Option (State × List Event)
  | 0, s =>
    match s.pending_messages with
    | [] => some (s, [])
    | _ :: _ => none
  | fuel + 1, s =>
    match s.pending_messages with
    | [] => some (s, [])
    | msg :: rest =>
      let s0 := { s with pending_messages := rest }
      let step :=
        Message env s0 msg.internal msg.channel msg.arguments msg.sender_id
      match ProcessPendingMessagesFuel env fuel step.1 with
      | some (sf, evs) => some (sf, step.2 ++ evs)
      | none => none

/-- `ElectronApiServiceImpl::BindTo`.  When the document exists: reset any
bound receiver, bind the new one, wire the disconnect handler.  Otherwise
store it in `pending_receiver_`, the assignment destroying any previously
stored pending receiver. -/
def BindTo (s : State) (receiver : Nat) : State × List Event :=
  if s.document_created then
    let resetEvs :=
      match s.receiver with
      | some old => [Event.receiverReset old]
      | none => []
    ({ s with receiver := some receiver },
     resetEvs ++ [Event.bindReceiver receiver,
                  Event.disconnectHandlerSet receiver])
  else
    let overwriteEvs :=
      match s.pending_receiver with
      | some old => [Event.pendingReceiverReleased old]
      | none => []
    ({ s with pending_receiver := some receiver }, overwriteEvs)

/-- `ElectronApiServiceImpl::DidCreateDocumentElement`: sets
`document_created_`, and if a pending receiver is stored, resets any bound
receiver, binds the pending one (moving it out, so `pending_receiver_`
becomes invalid) and wires the disconnect handler.  Nothing else is done:
in particular `ProcessPendingMessages` is not called. -/
def DidCreateDocumentElement (s : State) : State × List Event :=
  let s1 := { s with document_created := true }
  match s1.pending_receiver with
  | some pr =>
    let resetEvs :=
      match s1.receiver with
      | some old => [Event.receiverReset old]
      | none => []
    ({ s1 with receiver := some pr, pending_receiver := none },
     resetEvs ++ [Event.bindReceiver pr, Event.disconnectHandlerSet pr])
  | none => (s1, [])

/-- `ElectronApiServiceImpl::OnConnectionError`: if the receiver is bound,
reset it. -/
def OnConnectionError (s : State) : State × List Event :=
  match s.receiver with
  | some old => ({ s with receiver := none }, [Event.receiverReset old])
  | none => (s, [])

/-- `ElectronApiServiceImpl::ReceivePostMessage`: returns if the web frame
is null; otherwise deserializes the payload, entangles each transferred
port into the context, and emits `onMessage` with `internal = false`,
the entangled ports, the singleton argument array and `sender_id = 0`.
`document_created_` and `pending_messages_` are never consulted. -/
def ReceivePostMessage (env : Env) (s : State) (channel : String)
    (message : TransferableMessage) : State × List Event :=
  if !env.frame then
    (s, [])
  else
    (s, EmitIPCEvent env false channel message.ports
          (V8Value.ofValueList [message.payload]) 0)

/-- The callback invocation that delivering the stored message `m` through
`Message`/`EmitIPCEvent` produces (when the frame and the `ipcNative`
object are present). -/
def deliveryEvent (m : PendingElectronApiServiceMessage) : Event :=
  Event.callback "onMessage"
    [V8Value.ofBool m.internal, V8Value.ofString m.channel,
     V8Value.ofPorts [], V8Value.ofCloneable m.arguments,
     V8Value.ofInt m.sender_id]

/-- The environment with a live web frame and the `ipcNative` object
present: the normal delivery conditions. -/
def liveEnv : Env := { frame := true, ipcObjectPresent := true }

/-- The spec's concrete message
`{internal:false, channel:"ping", payload:"x", sender_id:5}`. -/
def pingMsg : PendingElectronApiServiceMessage :=
  { internal := false, channel := "ping",
    arguments := Payload.val "x", sender_id := 5 }

/-- C1 — The spec says a message arriving while `document_created_` is
false is enqueued and the operation returns without delivering it.  The
code enqueues it but lacks the early return: it falls through and invokes
`EmitIPCEvent` immediately, before any readiness transition, delivering
the moved-from payload.  Evaluating `Message` at the failing input shows
both the enqueue and the premature delivery. -/
theorem c1_not_ready_message_is_also_delivered :
    Message liveEnv initialState false "ping" (Payload.val "x") 5 =
      ({ document_created := false, pending_messages := [pingMsg],
         receiver := none, pending_receiver := none },
       [Event.callback "onMessage"
         [V8Value.ofBool false, V8Value.ofString "ping",
          V8Value.ofPorts [], V8Value.ofCloneable Payload.moved,
          V8Value.ofInt 5]]) ∧
    (Message liveEnv initialState false "ping" (Payload.val "x") 5).2 ≠ [] := by
  constructor
  · rfl
  · simp [Message, EmitIPCEvent, InvokeIpcCallback, liveEnv, initialState]

/-- C3 — The spec says the readiness transition triggers a full drain of
the pending message queue.  `DidCreateDocumentElement` only sets the flag
and promotes a pending receiver; it never calls `ProcessPendingMessages`,
so a buffered message stays in the queue and no delivery happens at the
transition. -/
theorem c3_transition_does_not_drain :
    DidCreateDocumentElement
      { document_created := false, pending_messages := [pingMsg],
        receiver := none, pending_receiver := none } =
    ({ document_created := true, pending_messages := [pingMsg],
       receiver := none, pending_receiver := none }, []) := by
  rfl

/-- C8 — A second invocation of `DidCreateDocumentElement` without an
intervening reset is a no-op: the first call leaves `document_created_`
true and `pending_receiver_` empty, so the second call changes nothing,
emits nothing, touches neither the queue nor the active binding. -/
theorem c8_second_transition_is_noop (s : State) :
    DidCreateDocumentElement (DidCreateDocumentElement s).1 =
      ((DidCreateDocumentElement s).1, []) := by
  cases s with
  | mk dc pm r pr =>
    cases pr <;> simp [DidCreateDocumentElement]

/-- C2 — Scenario M1 = `pingMsg` received while not ready, then the
readiness transition, then no further messages (n = 1, m = 1).  The
claim says the destination observes exactly [M1] (delivered after the
transition).  The code instead emits one callback already before the
transition, carrying the moved-from payload instead of `"x"`, and the
transition emits nothing, so the observed trace is not the delivery of
M1. -/
theorem c2_observed_trace_differs_from_m1 :
    (Message liveEnv initialState false "ping" (Payload.val "x") 5).2 ++
      (DidCreateDocumentElement
        (Message liveEnv initialState false "ping" (Payload.val "x") 5).1).2 =
      [Event.callback "onMessage"
        [V8Value.ofBool false, V8Value.ofString "ping",
         V8Value.ofPorts [], V8Value.ofCloneable Payload.moved,
         V8Value.ofInt 5]] ∧
    (Message liveEnv initialState false "ping" (Payload.val "x") 5).2 ++
      (DidCreateDocumentElement
        (Message liveEnv initialState false "ping" (Payload.val "x") 5).1).2 ≠
      [deliveryEvent pingMsg] := by
  constructor
  · rfl
  · intro h
    simp [Message, EmitIPCEvent, InvokeIpcCallback, liveEnv, initialState,
          DidCreateDocumentElement, deliveryEvent, pingMsg] at h

/-- C7 — Concrete scenario: enqueue `pingMsg` while not ready, then mark
ready.  The claim expects exactly one entry-point invocation, with
arguments `(false, "ping", [], "x", 5)`, released by the transition.  The
code produces exactly one invocation, but it happens at enqueue time and
carries the moved-from payload; the invocation with payload `"x"` never
occurs in the trace. -/
theorem c7_expected_invocation_never_occurs :
    deliveryEvent pingMsg ∉
      (Message liveEnv initialState false "ping" (Payload.val "x") 5).2 ++
        (DidCreateDocumentElement
          (Message liveEnv initialState false "ping" (Payload.val "x") 5).1).2 := by
  intro h
  simp [Message, EmitIPCEvent, InvokeIpcCallback, liveEnv, initialState,
        DidCreateDocumentElement, deliveryEvent, pingMsg] at h

/-- C4 — When `ProcessPendingMessages` runs in its intended condition
(`document_created_` true, so the re-invoked `Message` does not re-buffer,
and with a live frame and `ipcNative` present), the loop pops every queued
message from the front in FIFO order, delivers each exactly once via the
ordinary delivery path, and leaves the queue empty: the emitted trace is
exactly the enqueue-ordered image of the queue. -/
theorem c4_processPendingMessages_drains_fifo (env : Env) (s : State)
    (hdc : s.document_created = true) (hf : env.frame = true)
    (hipc : env.ipcObjectPresent = true) :
    ProcessPendingMessagesFuel env s.pending_messages.length s =
      some ({ s with pending_messages := [] },
            s.pending_messages.map deliveryEvent) := by
  obtain ⟨dc, pm, r, pr⟩ := s
  subst hdc
  induction pm with
  | nil => rfl
  | cons msg rest ih =>
    simp only [List.length_cons, ProcessPendingMessagesFuel, Message,
               EmitIPCEvent, InvokeIpcCallback, hf, hipc, Bool.not_true,
               Bool.false_eq_true, if_false, if_true, List.map_cons]
    rw [ih]
    rfl

/-- C4 witness: a two-message queue in the ready state drains to the empty
queue with the two deliveries in enqueue order. -/
theorem c4_witness :
    ProcessPendingMessagesFuel liveEnv 2
      { document_created := true,
        pending_messages :=
          [pingMsg,
           { internal := true, channel := "pong",
             arguments := Payload.val "y", sender_id := 7 }],
        receiver := none, pending_receiver := none } =
      some ({ document_created := true, pending_messages := [],
              receiver := none, pending_receiver := none },
            [deliveryEvent pingMsg,
             deliveryEvent
               { internal := true, channel := "pong",
                 arguments := Payload.val "y", sender_id := 7 }]) := by
  simpa using c4_processPendingMessages_drains_fifo liveEnv
    { document_created := true,
      pending_messages :=
        [pingMsg,
         { internal := true, channel := "pong",
           arguments := Payload.val "y", sender_id := 7 }],
      receiver := none, pending_receiver := none } rfl rfl rfl

/-- C5 — Two `BindTo` requests `r1` then `r2` while not ready: storing
`r2` overwrites `pending_receiver_`, destroying (releasing) `r1`; the
readiness transition promotes only `r2` to the active receiver and clears
the pending slot; no bind of `r1` ever appears in the trace. -/
theorem c5_second_pending_binding_wins (s : State) (r1 r2 : Nat)
    (hdc : s.document_created = false) (hne : r1 ≠ r2) :
    (DidCreateDocumentElement (BindTo (BindTo s r1).1 r2).1).1.receiver =
      some r2 ∧
    (DidCreateDocumentElement
      (BindTo (BindTo s r1).1 r2).1).1.pending_receiver = none ∧
    Event.pendingReceiverReleased r1 ∈ (BindTo (BindTo s r1).1 r2).2 ∧
    Event.bindReceiver r1 ∉
      (BindTo s r1).2 ++ (BindTo (BindTo s r1).1 r2).2 ++
        (DidCreateDocumentElement (BindTo (BindTo s r1).1 r2).1).2 := by
  obtain ⟨dc, pm, r, pr⟩ := s
  subst hdc
  cases r <;> cases pr <;>
    simp [BindTo, DidCreateDocumentElement, hne, Ne.symm hne]

/-- C5 witness: from the fresh state, pending binds 1 then 2 followed by
the readiness transition activate only binding 2. -/
theorem c5_witness :
    (DidCreateDocumentElement
      (BindTo (BindTo initialState 1).1 2).1).1.receiver = some 2 ∧
    (DidCreateDocumentElement
      (BindTo (BindTo initialState 1).1 2).1).1.pending_receiver = none ∧
    Event.pendingReceiverReleased 1 ∈ (BindTo (BindTo initialState 1).1 2).2 ∧
    Event.bindReceiver 1 ∉
      (BindTo initialState 1).2 ++ (BindTo (BindTo initialState 1).1 2).2 ++
        (DidCreateDocumentElement (BindTo (BindTo initialState 1).1 2).1).2 :=
  c5_second_pending_binding_wins initialState 1 2 rfl (by decide)

/-- C6 — A `BindTo` request while ready: any bound receiver is reset
first (its release event precedes the bind event in the trace), the new
receiver is bound and its disconnect handler wired immediately, and a
subsequent `OnConnectionError` (remote end lost) resets it, leaving no
active binding. -/
theorem c6_bind_when_ready_replaces_and_wires (s : State) (r : Nat)
    (hdc : s.document_created = true) :
    (BindTo s r).1.receiver = some r ∧
    Event.disconnectHandlerSet r ∈ (BindTo s r).2 ∧
    (∀ old, s.receiver = some old →
      (BindTo s r).2 =
        [Event.receiverReset old, Event.bindReceiver r,
         Event.disconnectHandlerSet r]) ∧
    (s.receiver = none →
      (BindTo s r).2 =
        [Event.bindReceiver r, Event.disconnectHandlerSet r]) ∧
    (OnConnectionError (BindTo s r).1).1.receiver = none := by
  obtain ⟨dc, pm, rcv, pr⟩ := s
  subst hdc
  cases rcv <;> simp [BindTo, OnConnectionError]

/-- C6 witness: binding 3 while ready with binding 7 active resets 7,
binds 3 with its disconnect handler, and a disconnect then unbinds it. -/
theorem c6_witness :
    (BindTo
      { document_created := true, pending_messages := [],
        receiver := some 7, pending_receiver := none } 3).1.receiver =
      some 3 ∧
    Event.disconnectHandlerSet 3 ∈
      (BindTo
        { document_created := true, pending_messages := [],
          receiver := some 7, pending_receiver := none } 3).2 ∧
    (∀ old,
      ({ document_created := true, pending_messages := [],
         receiver := some 7, pending_receiver := none } : State).receiver =
        some old →
      (BindTo
        { document_created := true, pending_messages := [],
          receiver := some 7, pending_receiver := none } 3).2 =
        [Event.receiverReset old, Event.bindReceiver 3,
         Event.disconnectHandlerSet 3]) ∧
    (({ document_created := true, pending_messages := [],
        receiver := some 7, pending_receiver := none } : State).receiver =
        none →
      (BindTo
        { document_created := true, pending_messages := [],
          receiver := some 7, pending_receiver := none } 3).2 =
        [Event.bindReceiver 3, Event.disconnectHandlerSet 3]) ∧
    (OnConnectionError
      (BindTo
        { document_created := true, pending_messages := [],
          receiver := some 7, pending_receiver := none } 3).1).1.receiver =
      none :=
  c6_bind_when_ready_replaces_and_wires
    { document_created := true, pending_messages := [],
      receiver := some 7, pending_receiver := none } 3 rfl

/-- C9 — When the web frame is null at delivery time, no entry-point
invocation happens: `Message` emits nothing (and, in the ready state where
it does not buffer, changes nothing — the message is dropped outright, no
retry state is kept), and `ReceivePostMessage` returns with no effect at
all. -/
theorem c9_null_frame_drops_silently (env : Env) (s : State)
    (internal : Bool) (channel : String) (arguments : Payload)
    (sender_id : Int) (channel2 : String) (tm : TransferableMessage)
    (hf : env.frame = false) :
    (Message env s internal channel arguments sender_id).2 = [] ∧
    (s.document_created = true →
      Message env s internal channel arguments sender_id = (s, [])) ∧
    ReceivePostMessage env s channel2 tm = (s, []) := by
  refine ⟨?_, ?_, ?_⟩
  · cases hdc : s.document_created <;> simp [Message, hf, hdc]
  · intro hdc
    simp [Message, hf, hdc]
  · simp [ReceivePostMessage, hf]

/-- C9 witness: with a null frame, a concrete message to a ready service
and a concrete post-message both vanish without any invocation. -/
theorem c9_witness :
    (Message { frame := false, ipcObjectPresent := true }
      { document_created := true, pending_messages := [],
        receiver := none, pending_receiver := none }
      false "ping" (Payload.val "x") 5).2 = [] ∧
    (({ document_created := true, pending_messages := [],
        receiver := none, pending_receiver := none } : State).document_created =
        true →
      Message { frame := false, ipcObjectPresent := true }
        { document_created := true, pending_messages := [],
          receiver := none, pending_receiver := none }
        false "ping" (Payload.val "x") 5 =
        ({ document_created := true, pending_messages := [],
           receiver := none, pending_receiver := none }, [])) ∧
    ReceivePostMessage { frame := false, ipcObjectPresent := true }
      { document_created := true, pending_messages := [],
        receiver := none, pending_receiver := none }
      "chan" { payload := Payload.val "p", ports := [4] } =
      ({ document_created := true, pending_messages := [],
         receiver := none, pending_receiver := none }, []) :=
  c9_null_frame_drops_silently { frame := false, ipcObjectPresent := true }
    { document_created := true, pending_messages := [],
      receiver := none, pending_receiver := none }
    false "ping" (Payload.val "x") 5 "chan"
    { payload := Payload.val "p", ports := [4] } rfl

/-- C10 — `ReceivePostMessage` never consults `document_created_` and
never touches `pending_messages_`: for every state (ready or not), with a
live frame it delivers immediately, invoking `onMessage` with
`internal = false`, the entangled ports, the singleton argument array and
`sender_id = 0`, and leaves the state unchanged. -/
theorem c10_receivePostMessage_bypasses_gate (env : Env) (s : State)
    (channel : String) (m : TransferableMessage)
    (hf : env.frame = true) (hipc : env.ipcObjectPresent = true) :
    ReceivePostMessage env s channel m =
      (s, [Event.callback "onMessage"
            [V8Value.ofBool false, V8Value.ofString channel,
             V8Value.ofPorts m.ports, V8Value.ofValueList [m.payload],
             V8Value.ofInt 0]]) := by
  simp [ReceivePostMessage, EmitIPCEvent, InvokeIpcCallback, hf, hipc]

/-- C10 witness: a post-message with two ports arriving while the gate is
closed (`document_created_` false, one message already buffered) is still
delivered immediately, with the buffer and state untouched. -/
theorem c10_witness :
    ReceivePostMessage liveEnv
      { document_created := false, pending_messages := [pingMsg],
        receiver := none, pending_receiver := none }
      "chan" { payload := Payload.val "p", ports := [4, 5] } =
      ({ document_created := false, pending_messages := [pingMsg],
         receiver := none, pending_receiver := none },
       [Event.callback "onMessage"
         [V8Value.ofBool false, V8Value.ofString "chan",
          V8Value.ofPorts [4, 5], V8Value.ofValueList [Payload.val "p"],
          V8Value.ofInt 0]]) :=
  c10_receivePostMessage_bypasses_gate liveEnv
    { document_created := false, pending_messages := [pingMsg],
      receiver := none, pending_receiver := none }
    "chan" { payload := Payload.val "p", ports := [4, 5] } rfl rfl

end ElectronIpc
